import Mathlib

/-!
Verification of the Taskify MERN task tracker (backend routes/model and the
client task cache in App.jsx), shallowly embedded in Lean 4.

Conventions of the embedding:
* A Mongo document store is a `List Task`; `_id` is the `id` field; dates and
  timestamps are naturals.
* Fallible store operations return `Except StoreError _`; an `Except.error`
  result leaves the store unchanged.
* The asynchronous client handlers are functions from the current client state
  and the (already resolved) server outcome to the next client state.
-/

namespace Taskify

/-- A Task document as in src/backend/src/models/taskModel.js: title,
description, status (enum, default Pending), dueDate (nullable date),
createdAt (default now), plus the Mongo `_id`. -/
structure Task where
  id : String
  title : String
  description : String
  status : String
  dueDate : Option Nat
  createdAt : Nat
deriving DecidableEq

/-- The status enumeration of the Mongoose schema:
enum: [Pending, In Progress, Completed]. -/
def validStatus (s : String) : Bool :=
  s = "Pending" || s = "In Progress" || s = "Completed"

/-- nextStatus from App.jsx (TaskItem): switch on task.status with a default
branch returning Pending. -/
def nextStatus (s : String) : String :=
  if s = "Pending" then "In Progress"
  else if s = "In Progress" then "Completed"
  else if s = "Completed" then "Pending"
  else "Pending"

/-- A toast notification as in App.jsx: a message and a type string
(success, error, info). -/
structure Notification where
  message : String
  kind : String
deriving DecidableEq

/-- The client-side state of App.jsx that the cache protocol touches:
the tasks array, the active status filter, the refreshTrigger counter
(incrementing it schedules a full re-fetch via the useEffect), the error
banner and the toast notification. -/
structure ClientState where
  tasks : List Task
  filterStatus : String
  refreshTrigger : Nat
  error : Option String
  notification : Option Notification
deriving DecidableEq

/-- showNotification from App.jsx (the timeout that later clears it is not
modelled). -/
def showNotification (st : ClientState) (msg kind : String) : ClientState :=
  { st with notification := some ⟨msg, kind⟩ }

/-- The optimistic cache mutation inside updateTaskStatus:
setTasks(prevTasks.map(task => task._id === id ? { ...task, status: newStatus } : task)). -/
def optimisticSetStatus (tasks : List Task) (id newStatus : String) : List Task :=
  tasks.map (fun t => if t.id = id then { t with status := newStatus } else t)

/-- updateTaskStatus from App.jsx. `serverOk` is whether the PUT request
resolved with response.ok. The handler captures tempOriginalTasks, applies the
optimistic mutation, and on failure restores the snapshot and increments
refreshTrigger. -/
def updateTaskStatus (st : ClientState) (id newStatus : String) (serverOk : Bool) :
    ClientState :=
  let tempOriginalTasks := st.tasks
  let st1 : ClientState :=
    { st with error := none, tasks := optimisticSetStatus st.tasks id newStatus }
  if serverOk then
    showNotification st1 ("Status updated to " ++ newStatus ++ "!") "info"
  else
    let st2 := showNotification
      { st1 with error := some "Failed to update task status." }
      "Error updating status. Reverting change." "error"
    { st2 with tasks := tempOriginalTasks, refreshTrigger := st2.refreshTrigger + 1 }

/-- createTask from App.jsx. The outcome is `Except.ok ()` when the POST
resolved with response.ok, `Except.error m` when it did not (or the network
failed), with m the thrown message. -/
def createTaskClient (st : ClientState) (taskTitle : String)
    (outcome : Except String Unit) : ClientState :=
  let st0 : ClientState := { st with error := none }
  match outcome with
  | .ok _ =>
      showNotification { st0 with refreshTrigger := st0.refreshTrigger + 1 }
        ("Task " ++ taskTitle ++ " created successfully!") "success"
  | .error m =>
      showNotification { st0 with error := some ("Failed to create task. " ++ m) }
        "Error creating task. Check console." "error"

/-- deleteTask from App.jsx. The response is `Except.ok code` for an HTTP
status code, `Except.error m` for a network failure. The handler only throws
when the code is neither 204 nor 404: a 404 falls through to the success
path. -/
def deleteTaskClient (st : ClientState) (response : Except String Nat) : ClientState :=
  let st0 : ClientState := { st with error := none }
  match response with
  | .ok code =>
      if code = 204 ∨ code = 404 then
        showNotification { st0 with refreshTrigger := st0.refreshTrigger + 1 }
          "Task deleted successfully." "error"
      else
        showNotification { st0 with error := some "Failed to delete task." }
          "Error deleting task. Check console." "error"
  | .error m =>
      showNotification { st0 with error := some ("Failed to delete task. " ++ m) }
        "Error deleting task. Check console." "error"

/-- The query the useEffect fetch uses: no status parameter when the filter is
All, otherwise the current filterStatus. -/
def fetchQuery (st : ClientState) : Option String :=
  if st.filterStatus = "All" then none else some st.filterStatus

/-- The useEffect fetch body from App.jsx: on ok, setTasks(data) replaces the
whole cache; on failure the cache is left as it is and the error banner set. -/
def fetchTasksClient (st : ClientState) (response : Except String (List Task)) :
    ClientState :=
  match response with
  | .ok data => { st with tasks := data, error := none }
  | .error m =>
      { st with error := some ("Failed to load tasks from MERN backend. " ++ m) }

/-! Backend: the Task store operations (Mongoose model + route bodies) and the
HTTP error mapping of src/backend/src/routes/taskRoutes.js. -/

/-- The failures a store operation can produce: a Mongoose ValidationError,
a not-found lookup (findById… returned null), or any other store failure
(connection errors and other thrown errors). -/
inductive StoreError where
  | validation (msg : String)
  | notFound
  | connection (msg : String)
deriving DecidableEq

/-- Decidable equality of operation results, so that concrete runs of the
store operations can be evaluated. -/
instance exceptDecEq {ε α : Type} [DecidableEq ε] [DecidableEq α] :
    DecidableEq (Except ε α) := fun x y =>
  match x, y with
  | .ok a, .ok b =>
      if h : a = b then isTrue (by rw [h])
      else isFalse (by intro hc; cases hc; exact h rfl)
  | .error a, .error b =>
      if h : a = b then isTrue (by rw [h])
      else isFalse (by intro hc; cases hc; exact h rfl)
  | .ok _, .error _ => isFalse (by intro hc; cases hc)
  | .error _, .ok _ => isFalse (by intro hc; cases hc)

/-- The message attached to a thrown store error (error.message in the route
catch blocks). -/
def storeErrorMessage : StoreError → String
  | .validation m => m
  | .notFound => "not found"
  | .connection m => m

/-- The trim setter of the title schema path (trim: true): whitespace is
stripped from both ends of the string. -/
def trimChars (l : List Char) : List Char :=
  ((l.dropWhile Char.isWhitespace).reverse.dropWhile Char.isWhitespace).reverse

/-- String form of the trim setter. -/
def trimStr (s : String) : String := ⟨trimChars s.data⟩

/-- The request body of POST /api/tasks as the Mongoose document constructor
sees it: every schema path may or may not be present. `dueDate = some none`
models an explicit null. -/
structure CreateBody where
  title : Option String
  description : Option String
  status : Option String
  dueDate : Option (Option Nat)
  createdAt : Option Nat
deriving DecidableEq

/-- new Task(req.body) followed by save(), from createTask in taskRoutes.js
and the schema in taskModel.js: the title is trimmed (trim: true); required
String paths reject the empty string; status must be in the enum and defaults
to Pending; createdAt defaults to now; the saved document gets the generated
id and is added to the store. Any schema path supplied by the client
(including status and createdAt) is honored. -/
def createTaskStore (store : List Task) (body : CreateBody) (now : Nat)
    (newId : String) : Except StoreError (Task × List Task) :=
  let title := trimStr (body.title.getD "")
  let descr := body.description.getD ""
  let status := body.status.getD "Pending"
  let dueDate := body.dueDate.getD none
  let createdAt := body.createdAt.getD now
  if title = "" then .error (.validation "Title is required.")
  else if descr = "" then .error (.validation "Description is required.")
  else if !validStatus status then
    .error (.validation ("status: " ++ status ++ " is not a valid enum value"))
  else
    let t : Task := ⟨newId, title, descr, status, dueDate, createdAt⟩
    .ok (t, t :: store)

/-- The request body of PUT /api/tasks/:id: an arbitrary partial field set,
possibly mentioning _id or createdAt. -/
structure UpdateBody where
  id : Option String
  title : Option String
  description : Option String
  status : Option String
  dueDate : Option (Option Nat)
  createdAt : Option Nat
deriving DecidableEq

/-- The Mongoose update validators that runValidators: true enables: they run
on exactly the paths present in the update. title is trimmed then must be
non-empty; description must be non-empty; status must be in the enum.
createdAt has no validator and is not immutable in the schema. -/
def updateBodyValid (body : UpdateBody) : Bool :=
  (match body.title with | some s => !(trimStr s = "") | none => true) &&
  (match body.description with | some s => !(s = "") | none => true) &&
  (match body.status with | some s => validStatus s | none => true)

/-- MongoDB rejects an update that would modify the immutable _id field. -/
def idConflict (t : Task) (body : UpdateBody) : Bool :=
  match body.id with
  | some i => !(i = t.id)
  | none => false

/-- Applying the partial field set to a document ($set semantics of
findByIdAndUpdate): present paths overwrite, absent paths are kept; title goes
through the trim setter. -/
def applyUpdate (t : Task) (body : UpdateBody) : Task :=
  { t with
    title := (body.title.map trimStr).getD t.title
    description := body.description.getD t.description
    status := body.status.getD t.status
    dueDate := body.dueDate.getD t.dueDate
    createdAt := body.createdAt.getD t.createdAt }

/-- Task.findByIdAndUpdate(id, body, with new and runValidators) from
updateTask in taskRoutes.js. Mongoose runs the update validators before the
query is sent to the store, so an invalid body fails with a ValidationError
even when no document with the id exists; only then does the lookup decide
between not-found (null result) and applying the update. -/
def updateTaskStore (store : List Task) (id : String) (body : UpdateBody) :
    Except StoreError (Task × List Task) :=
  if !updateBodyValid body then .error (.validation "Validation failed")
  else
    match store.find? (fun t => t.id = id) with
    | none => .error .notFound
    | some t =>
        if idConflict t body then
          .error (.connection "would modify the immutable field _id")
        else
          let u := applyUpdate t body
          .ok (u, store.map (fun x => if x.id = id then u else x))

/-- Task.findByIdAndDelete from deleteTask in taskRoutes.js: null when the id
is absent, otherwise the document is removed. -/
def deleteTaskStore (store : List Task) (id : String) :
    Except StoreError (List Task) :=
  match store.find? (fun t => t.id = id) with
  | none => .error .notFound
  | some _ => .ok (store.filter (fun t => !(t.id = id)))

/-- An HTTP response of the service layer: status code, the message field of
the JSON body, and the error field (error.message) when one is attached. -/
structure HttpResponse where
  statusCode : Nat
  message : String
  errorDetail : Option String
deriving DecidableEq

/-- The response mapping of getAllTasks: 200 on success, otherwise 500 with
the generic message and error.message attached. -/
def getAllTasksRoute (result : Except StoreError (List Task)) : HttpResponse :=
  match result with
  | .ok _ => ⟨200, "OK", none⟩
  | .error e => ⟨500, "Failed to fetch tasks", some (storeErrorMessage e)⟩

/-- The response mapping of createTask: 201 on success; the catch block maps
every thrown error (validation or otherwise) to 400 with error.message
attached. -/
def createTaskRoute (result : Except StoreError (Task × List Task)) : HttpResponse :=
  match result with
  | .ok _ => ⟨201, "Created", none⟩
  | .error e => ⟨400, "Failed to create task", some (storeErrorMessage e)⟩

/-- The response mapping of updateTask: 200 on success, 404 when the lookup
returned null, and the catch block maps every thrown error to 400 with
error.message attached. -/
def updateTaskRoute (result : Except StoreError (Task × List Task)) : HttpResponse :=
  match result with
  | .ok _ => ⟨200, "OK", none⟩
  | .error .notFound => ⟨404, "Task not found", none⟩
  | .error e => ⟨400, "Failed to update task", some (storeErrorMessage e)⟩

/-- The response mapping of deleteTask: 204 on success, 404 when the lookup
returned null, and the catch block maps every thrown error to 500 with
error.message attached. -/
def deleteTaskRoute (result : Except StoreError (List Task)) : HttpResponse :=
  match result with
  | .ok _ => ⟨204, "", none⟩
  | .error .notFound => ⟨404, "Task not found", none⟩
  | .error e => ⟨500, "Failed to delete task", some (storeErrorMessage e)⟩

/-- The status-only body the client PUTs in updateTaskStatus:
JSON.stringify of a single status field. -/
def statusOnlyBody (newStatus : String) : UpdateBody :=
  ⟨none, none, none, some newStatus, none, none⟩

/-! The GET /api/tasks filter and ordering of getAllTasks. -/

/-- One pattern character against one subject character under the regex i
flag: the metacharacter dot matches any character, any other pattern character
matches case-insensitively. This is the fragment of JS RegExp semantics that
anchored patterns built from plain characters and dots use. -/
def regexCharMatches (p c : Char) : Bool := p == '.' || p.toLower == c.toLower

/-- Anchored matching (the pattern is wrapped in circumflex and dollar) of a
pattern against a whole subject, per regexCharMatches. -/
def regexLitMatches : List Char → List Char → Bool
  | [], [] => true
  | p :: ps, c :: cs => regexCharMatches p c && regexLitMatches ps cs
  | _, _ => false

/-- The status filter of getAllTasks: new RegExp of the anchored status
string with flag i, matched against the stored status. -/
def statusRegexMatches (pat s : String) : Bool := regexLitMatches pat.data s.data

/-- Case-insensitive string equality: the wording the spec uses for the
filter property (case-insensitive exact match on status). -/
def eqCaseInsensitive (a b : String) : Bool :=
  a.data.map Char.toLower == b.data.map Char.toLower

/-- Characters that are metacharacters of JS regular expressions; a status
string made only of other characters is matched literally by the filter. -/
def literalPatternChar (c : Char) : Bool :=
  !(['^', '$', '.', '*', '+', '?', '(', ')', '[', ']',
     '\x7b', '\x7d', '|', '\\'].contains c)

/-- A status string the filter treats as a literal: non-empty (the route
ignores an empty status query) and free of regex metacharacters. -/
def literalPattern (s : String) : Bool :=
  !s.data.isEmpty && s.data.all literalPatternChar

/-- Descending createdAt: the sort order of Task.find(filter).sort with
createdAt: -1. -/
def createdAtDesc (a b : Task) : Prop := b.createdAt ≤ a.createdAt

instance : DecidableRel createdAtDesc := fun a b =>
  inferInstanceAs (Decidable (b.createdAt ≤ a.createdAt))

instance : IsTotal Task createdAtDesc :=
  ⟨fun a b => Nat.le_total b.createdAt a.createdAt⟩

instance : IsTrans Task createdAtDesc :=
  ⟨fun _ _ _ hab hbc => Nat.le_trans hbc hab⟩

/-- getAllTasks from taskRoutes.js: an absent or empty status query yields no
filter (if (status) is falsy on the empty string); otherwise the documents are
filtered by the anchored case-insensitive regex built from the query; the
result is ordered by createdAt descending. -/
def getAllTasks (store : List Task) (statusQuery : Option String) : List Task :=
  let filtered :=
    match statusQuery with
    | none => store
    | some s =>
        if s = "" then store
        else store.filter (fun t => statusRegexMatches s t.status)
  List.insertionSort createdAtDesc filtered

/-! Concrete values used by counterexamples and witnesses. -/

/-- A concrete stored task. -/
def task1 : Task := ⟨"t1", "Write spec", "draft v1", "Pending", none, 5⟩

/-- A second concrete stored task, created later than task1. -/
def task2 : Task := ⟨"t2", "Review", "check v1", "Completed", some 10, 9⟩

/-- A concrete client state holding both demo tasks. -/
def demoState : ClientState := ⟨[task1, task2], "All", 0, none, none⟩

/-- Claim C1: if the status-advance request for a task fails, the rollback
restores the entire local task list (every task and every field) to exactly
what it was immediately before the optimistic mutation. -/
theorem c1_rollback_restores_whole_list (st : ClientState) (id newStatus : String) :
    (updateTaskStatus st id newStatus false).tasks = st.tasks := by
  simp [updateTaskStatus, showNotification]

/-- Claim C5: nextStatus maps Pending to In Progress, In Progress to
Completed, Completed to Pending, and is cyclic of order three on the status
enumeration. -/
theorem c5_nextStatus_cycle (s : String)
    (h : s = "Pending" ∨ s = "In Progress" ∨ s = "Completed") :
    (nextStatus "Pending" = "In Progress" ∧ nextStatus "In Progress" = "Completed" ∧
      nextStatus "Completed" = "Pending") ∧
    nextStatus (nextStatus (nextStatus s)) = s := by
  rcases h with h | h | h <;> subst h <;> exact ⟨⟨rfl, rfl, rfl⟩, rfl⟩

/-- Witness for C5 at the concrete status Completed. -/
theorem c5_nextStatus_cycle_witness :
    (nextStatus "Pending" = "In Progress" ∧ nextStatus "In Progress" = "Completed" ∧
      nextStatus "Completed" = "Pending") ∧
    nextStatus (nextStatus (nextStatus "Completed")) = "Completed" :=
  c5_nextStatus_cycle "Completed" (Or.inr (Or.inr rfl))

/-- The trim setter maps the empty string to itself. -/
theorem trimStr_empty : trimStr "" = "" := rfl

/-- Helper: a create whose title trims to empty or whose description is empty
fails with some ValidationError. -/
theorem createTaskStore_empty_validation (store : List Task) (body : CreateBody)
    (now : Nat) (newId : String)
    (h : trimStr (body.title.getD "") = "" ∨ body.description.getD "" = "") :
    ∃ m, createTaskStore store body now newId = .error (.validation m) := by
  unfold createTaskStore
  by_cases ht : trimStr (body.title.getD "") = ""
  · exact ⟨"Title is required.", by simp [ht]⟩
  · rcases h with h | h
    · exact absurd h ht
    · exact ⟨"Description is required.", by simp [ht, h]⟩

/-- Claim C3 counterexample: the create request with title Write spec,
description draft v1 and a client-supplied status Completed is persisted with
status Completed, not Pending — the stored status is not Pending regardless of
the client-supplied value, refuting the claim at this input. -/
theorem c3_counterexample :
    createTaskStore [] ⟨some "Write spec", some "draft v1", some "Completed", none, none⟩
        100 "t9"
      = .ok (⟨"t9", "Write spec", "draft v1", "Completed", none, 100⟩,
             [⟨"t9", "Write spec", "draft v1", "Completed", none, 100⟩]) ∧
    (⟨"t9", "Write spec", "draft v1", "Completed", none, 100⟩ : Task).status ≠ "Pending" := by
  decide

/-- Claim C3 (amended): an empty title or description fails with a
ValidationError and nothing is stored; when the request body supplies neither
a status nor a createdAt, the persisted record has the store-generated id,
status Pending and createdAt = now, and is added to the store. (A
client-supplied valid status or createdAt is honored by the code, which is
what the amendment drops from the original claim.) -/
theorem c3_amended (store : List Task) (body : CreateBody) (now : Nat) (newId : String) :
    (body.title = some "" ∨ body.description = some "" →
      ∃ m, createTaskStore store body now newId = .error (.validation m)) ∧
    (body.status = none → body.createdAt = none →
      ∀ t store2, createTaskStore store body now newId = .ok (t, store2) →
        t.id = newId ∧ t.status = "Pending" ∧ t.createdAt = now ∧ store2 = t :: store) := by
  constructor
  · intro h
    apply createTaskStore_empty_validation
    rcases h with h | h
    · exact Or.inl (by rw [h]; rfl)
    · exact Or.inr (by rw [h]; rfl)
  · intro h1 h2 t store2 hok
    unfold createTaskStore at hok
    rw [h1, h2] at hok
    simp only [Option.getD] at hok
    split at hok
    · cases hok
    · split at hok
      · cases hok
      · split at hok
        · cases hok
        · cases hok
          exact ⟨rfl, rfl, rfl, rfl⟩

/-- Witness for C3 (amended) at concrete inputs: an empty-title body fails,
and a body with only title, description and dueDate is stored with Pending
status and createdAt = now. -/
theorem c3_amended_witness :
    (∃ m, createTaskStore [] ⟨some "", some "d", none, none, none⟩ 5 "t9"
       = .error (.validation m)) ∧
    ((⟨"t9", "a", "b", "Pending", none, 5⟩ : Task).id = "t9" ∧
      (⟨"t9", "a", "b", "Pending", none, 5⟩ : Task).status = "Pending" ∧
      (⟨"t9", "a", "b", "Pending", none, 5⟩ : Task).createdAt = 5 ∧
      ([⟨"t9", "a", "b", "Pending", none, 5⟩] : List Task)
        = ⟨"t9", "a", "b", "Pending", none, 5⟩ :: []) :=
  ⟨(c3_amended [] ⟨some "", some "d", none, none, none⟩ 5 "t9").1 (Or.inl rfl),
   (c3_amended [] ⟨some "a", some "b", none, none, none⟩ 5 "t9").2 rfl rfl
     ⟨"t9", "a", "b", "Pending", none, 5⟩ [⟨"t9", "a", "b", "Pending", none, 5⟩]
     (by decide)⟩

/-- Claim C7 counterexample: the stored task t1 has createdAt 5; a successful
update whose body mentions createdAt 99 returns and stores the record with
createdAt 99 — createdAt after the successful update differs from its value at
creation, refuting the claim at this input. -/
theorem c7_counterexample :
    updateTaskStore [task1] "t1" ⟨none, none, none, none, none, some 99⟩
      = .ok (⟨"t1", "Write spec", "draft v1", "Pending", none, 99⟩,
             [⟨"t1", "Write spec", "draft v1", "Pending", none, 99⟩]) ∧
    task1.createdAt ≠ 99 := by decide

/-- Claim C7 (amended): after a successful update the task's id always equals
its value at creation; its createdAt equals its value at creation whenever the
update body does not itself supply a createdAt (the schema does not mark
createdAt immutable, so a body that mentions createdAt changes it). -/
theorem c7_amended (store : List Task) (id : String) (body : UpdateBody)
    (u : Task) (store2 : List Task)
    (h : updateTaskStore store id body = .ok (u, store2)) :
    ∃ r, store.find? (fun t => t.id = id) = some r ∧
      u.id = r.id ∧
      (body.createdAt = none → u.createdAt = r.createdAt) := by
  unfold updateTaskStore at h
  split at h
  · cases h
  · split at h
    · cases h
    · rename_i r hfind
      split at h
      · cases h
      · cases h
        refine ⟨r, hfind, rfl, ?_⟩
        intro hc
        simp [applyUpdate, hc]

/-- Witness for C7 (amended): a concrete successful update (new title only)
preserves id and createdAt. -/
theorem c7_amended_witness :
    ∃ r, [task1].find? (fun t => t.id = "t1") = some r ∧
      (⟨"t1", "New title", "draft v1", "Pending", none, 5⟩ : Task).id = r.id ∧
      (⟨"t1", "New title", "draft v1", "Pending", none, 5⟩ : Task).createdAt
        = r.createdAt := by
  obtain ⟨r, h1, h2, h3⟩ :=
    c7_amended [task1] "t1" ⟨none, some "New title", none, none, none, none⟩
      ⟨"t1", "New title", "draft v1", "Pending", none, 5⟩
      [⟨"t1", "New title", "draft v1", "Pending", none, 5⟩] (by decide)
  exact ⟨r, h1, h2, h3 rfl⟩

/-- Claim C8 counterexample: on the empty store (so no record with id t1
exists) an update with the out-of-enumeration status Done fails with a
ValidationError, not NotFound — the update validators run before the document
lookup, refuting the claim that an absent id always yields NotFound. -/
theorem c8_counterexample :
    updateTaskStore [] "t1" ⟨none, none, none, some "Done", none, none⟩
      = .error (.validation "Validation failed") ∧
    updateTaskStore [] "t1" ⟨none, none, none, some "Done", none, none⟩
      ≠ .error .notFound := by decide

/-- Claim C8 (amended): validation of the supplied partial fields runs first:
an invalid body (for example a status outside the enumeration) fails with
ValidationError regardless of whether the id exists, and the store is
unchanged; with a valid body, an absent id fails with NotFound; otherwise the
partial fields are applied and the updated record is returned and stored. -/
theorem c8_amended (store : List Task) (id : String) (body : UpdateBody) :
    (updateBodyValid body = false →
      updateTaskStore store id body = .error (.validation "Validation failed")) ∧
    (updateBodyValid body = true → store.find? (fun t => t.id = id) = none →
      updateTaskStore store id body = .error .notFound) ∧
    (updateBodyValid body = true → body.id = none →
      ∀ r, store.find? (fun t => t.id = id) = some r →
        updateTaskStore store id body
          = .ok (applyUpdate r body,
                 store.map (fun x => if x.id = id then applyUpdate r body else x))) := by
  refine ⟨fun hv => ?_, fun hv hf => ?_, fun hv hid r hf => ?_⟩
  · unfold updateTaskStore
    simp [hv]
  · unfold updateTaskStore
    simp [hv, hf]
  · unfold updateTaskStore
    simp [hv, hf, idConflict, hid]

/-- Witness for C8 (amended) at concrete inputs: an invalid status fails with
ValidationError even on a store where the id exists; a valid body on the
empty store fails with NotFound; a valid status-only body on the stored t1 is
applied. -/
theorem c8_amended_witness :
    updateTaskStore [task1] "t1" ⟨none, none, none, some "Done", none, none⟩
      = .error (.validation "Validation failed") ∧
    updateTaskStore [] "t1" ⟨none, none, none, some "In Progress", none, none⟩
      = .error .notFound ∧
    updateTaskStore [task1] "t1" ⟨none, none, none, some "In Progress", none, none⟩
      = .ok (applyUpdate task1 ⟨none, none, none, some "In Progress", none, none⟩,
             [task1].map (fun x =>
               if x.id = "t1"
               then applyUpdate task1 ⟨none, none, none, some "In Progress", none, none⟩
               else x)) :=
  ⟨(c8_amended [task1] "t1" ⟨none, none, none, some "Done", none, none⟩).1 (by decide),
   (c8_amended [] "t1" ⟨none, none, none, some "In Progress", none, none⟩).2.1
     (by decide) (by decide),
   (c8_amended [task1] "t1" ⟨none, none, none, some "In Progress", none, none⟩).2.2
     (by decide) rfl task1 (by decide)⟩

/-- Claim C9 counterexample: a store failure that is neither a ValidationError
nor NotFound (a connection loss during create) is reported by the create route
with status 400 — a client-input failure code, not a server-side (5xx)
failure, refuting the claim at this input. -/
theorem c9_counterexample :
    (createTaskRoute (.error (.connection "connection lost"))).statusCode = 400 ∧
    ¬ 500 ≤ (createTaskRoute (.error (.connection "connection lost"))).statusCode := by
  decide

/-- Claim C9 (amended): the list and delete routes map a NotFound to 404 and
every other store failure to a 500 server-side response with a generic message
plus the error detail; the create and update routes map NotFound to 404 but
every other failure — validation errors and store/connection errors alike —
to a 400 client-input response carrying the error message. -/
theorem c9_amended :
    (∀ m, createTaskRoute (.error (.validation m))
        = ⟨400, "Failed to create task", some m⟩) ∧
    (∀ m, createTaskRoute (.error (.connection m))
        = ⟨400, "Failed to create task", some m⟩) ∧
    (∀ m, updateTaskRoute (.error (.validation m))
        = ⟨400, "Failed to update task", some m⟩) ∧
    (updateTaskRoute (.error .notFound) = ⟨404, "Task not found", none⟩) ∧
    (∀ m, updateTaskRoute (.error (.connection m))
        = ⟨400, "Failed to update task", some m⟩) ∧
    (∀ m, getAllTasksRoute (.error (.connection m))
        = ⟨500, "Failed to fetch tasks", some m⟩) ∧
    (deleteTaskRoute (.error .notFound) = ⟨404, "Task not found", none⟩) ∧
    (∀ m, deleteTaskRoute (.error (.connection m))
        = ⟨500, "Failed to delete task", some m⟩) :=
  ⟨fun _ => rfl, fun _ => rfl, fun _ => rfl, rfl, fun _ => rfl, fun _ => rfl, rfl,
   fun _ => rfl⟩

/-- Claim C4 counterexample: a successful status update leaves refreshTrigger
unchanged (no re-fetch is scheduled), and so does a failed create — refuting
the claim that every completed create/update/delete, success or failure,
schedules a full re-fetch. -/
theorem c4_counterexample :
    (updateTaskStatus demoState "t1" "In Progress" true).refreshTrigger
      = demoState.refreshTrigger ∧
    (createTaskClient demoState "x" (.error "network down")).refreshTrigger
      = demoState.refreshTrigger ∧
    demoState.refreshTrigger ≠ demoState.refreshTrigger + 1 := by decide

/-- Claim C4 (amended): a re-fetch (refreshTrigger increment) is scheduled
exactly when a create succeeds, when a delete is answered 204 or 404, and on
the failure/rollback path of a status update; a successful status update, a
failed create, and a network-failed delete leave refreshTrigger unchanged.
The re-fetch itself replaces the entire local cache with the server's
response. -/
theorem c4_amended :
    (∀ st title, (createTaskClient st title (.ok ())).refreshTrigger
        = st.refreshTrigger + 1) ∧
    (∀ st title m, (createTaskClient st title (.error m)).refreshTrigger
        = st.refreshTrigger) ∧
    (∀ st id s, (updateTaskStatus st id s false).refreshTrigger
        = st.refreshTrigger + 1) ∧
    (∀ st id s, (updateTaskStatus st id s true).refreshTrigger
        = st.refreshTrigger) ∧
    (∀ st : ClientState, (deleteTaskClient st (.ok 204)).refreshTrigger
        = st.refreshTrigger + 1) ∧
    (∀ st : ClientState, (deleteTaskClient st (.ok 404)).refreshTrigger
        = st.refreshTrigger + 1) ∧
    (∀ st m, (deleteTaskClient st (.error m)).refreshTrigger = st.refreshTrigger) ∧
    (∀ st data, (fetchTasksClient st (.ok data)).tasks = data) := by
  refine ⟨fun st title => rfl, fun st title m => rfl, fun st id s => rfl,
    fun st id s => rfl, fun st => rfl, fun st => rfl, fun st m => rfl,
    fun st data => rfl⟩

/-- Claim C6 counterexample: the client state after a delete answered 404
equals the state after a delete answered 204 — the success toast is shown, the
re-fetch is scheduled and no error is signalled, so the client proceeds as if
the delete succeeded, refuting the end-to-end part of the claim. -/
theorem c6_counterexample :
    deleteTaskClient demoState (.ok 404) = deleteTaskClient demoState (.ok 204) ∧
    (deleteTaskClient demoState (.ok 404)).error = none ∧
    (deleteTaskClient demoState (.ok 404)).notification
      = some ⟨"Task deleted successfully.", "error"⟩ := by decide

/-- Claim C6 (amended): deleting an absent id yields NotFound at the store and
a 404 response at the service — never a silent success server-side; the
client, however, treats the 404 delete response identically to a successful
204 delete, signalling success and scheduling the re-fetch rather than
reporting a failure. -/
theorem c6_amended (store : List Task) (id : String)
    (h : store.find? (fun t => t.id = id) = none) :
    deleteTaskStore store id = .error .notFound ∧
    deleteTaskRoute (deleteTaskStore store id) = ⟨404, "Task not found", none⟩ ∧
    ∀ st : ClientState, deleteTaskClient st (.ok 404) = deleteTaskClient st (.ok 204) := by
  have hs : deleteTaskStore store id = .error .notFound := by
    unfold deleteTaskStore
    rw [h]
  exact ⟨hs, by rw [hs]; rfl, fun st => rfl⟩

/-- Witness for C6 (amended): on the empty store, deleting t1 is NotFound and
mapped to 404, and the client treats the 404 like a 204. -/
theorem c6_amended_witness :
    deleteTaskStore [] "t1" = .error .notFound ∧
    deleteTaskRoute (deleteTaskStore [] "t1") = ⟨404, "Task not found", none⟩ ∧
    ∀ st : ClientState, deleteTaskClient st (.ok 404) = deleteTaskClient st (.ok 204) :=
  c6_amended [] "t1" rfl

/-- Claim C10: the optimistic mutation preserves the length of the cache;
every entry whose id differs from the target is unchanged, and an entry with
the target id changes only its status field; and since the client sends a
status-only body, a successful server update returns exactly the found record
with only its status replaced — title, description, dueDate, createdAt and id
unchanged. -/
theorem c10_optimistic_frame (tasks : List Task) (id newStatus : String)
    (store : List Task) (u : Task) (store2 : List Task) :
    (optimisticSetStatus tasks id newStatus).length = tasks.length ∧
    (∀ i (h : i < tasks.length),
      (tasks[i].id ≠ id →
        (optimisticSetStatus tasks id newStatus)[i]? = some tasks[i]) ∧
      (tasks[i].id = id →
        (optimisticSetStatus tasks id newStatus)[i]?
          = some { tasks[i] with status := newStatus })) ∧
    (updateTaskStore store id (statusOnlyBody newStatus) = .ok (u, store2) →
      ∃ r, store.find? (fun t => t.id = id) = some r ∧
        u = { r with status := newStatus }) := by
  refine ⟨by simp [optimisticSetStatus], fun i h => ⟨fun hne => ?_, fun heq => ?_⟩,
    fun hok => ?_⟩
  · simp [optimisticSetStatus, List.getElem?_map, List.getElem?_eq_getElem h, hne]
  · simp [optimisticSetStatus, List.getElem?_map, List.getElem?_eq_getElem h, heq]
  · unfold updateTaskStore at hok
    split at hok
    · cases hok
    · split at hok
      · cases hok
      · rename_i r hfind
        split at hok
        · cases hok
        · cases hok
          exact ⟨r, hfind, by simp [applyUpdate, statusOnlyBody]⟩

/-- Witness for C10 at a concrete cache and store: advancing t1 to In Progress
rewrites entry 0 to the status-changed record, leaves entry 1 untouched, and
the concrete successful server update returns t1 with only the status
replaced. -/
theorem c10_optimistic_frame_witness :
    (optimisticSetStatus [task1, task2] "t1" "In Progress").length = 2 ∧
    (optimisticSetStatus [task1, task2] "t1" "In Progress")[0]?
      = some ⟨"t1", "Write spec", "draft v1", "In Progress", none, 5⟩ ∧
    (optimisticSetStatus [task1, task2] "t1" "In Progress")[1]? = some task2 ∧
    (∃ r, [task1].find? (fun t => t.id = "t1") = some r ∧
      (⟨"t1", "Write spec", "draft v1", "In Progress", none, 5⟩ : Task)
        = { r with status := "In Progress" }) := by
  have h := c10_optimistic_frame [task1, task2] "t1" "In Progress" [task1]
    ⟨"t1", "Write spec", "draft v1", "In Progress", none, 5⟩
    [⟨"t1", "Write spec", "draft v1", "In Progress", none, 5⟩]
  refine ⟨h.1, ?_, ?_, h.2.2 (by decide)⟩
  · exact (h.2.1 0 (by decide)).2 (by decide)
  · exact (h.2.1 1 (by decide)).1 (by decide)

/-- Helper: on a pattern free of metacharacters, anchored case-insensitive
regex matching coincides with case-insensitive equality of character lists. -/
theorem regexLitMatches_literal (p : List Char) (hp : p.all literalPatternChar = true) :
    ∀ s : List Char, regexLitMatches p s = true ↔
      p.map Char.toLower = s.map Char.toLower := by
  induction p with
  | nil =>
      intro s
      cases s with
      | nil => simp [regexLitMatches]
      | cons c cs => simp [regexLitMatches]
  | cons a ps ih =>
      intro s
      simp only [List.all_cons, Bool.and_eq_true] at hp
      have hne : ¬ a = '.' := by
        intro h
        have := hp.1
        rw [h] at this
        exact absurd this (by decide)
      cases s with
      | nil => simp [regexLitMatches]
      | cons c cs =>
          simp [regexLitMatches, regexCharMatches, hne, ih hp.2]

/-- Helper: the regex filter and the case-insensitive-equality filter pick the
same tasks when the status string is a literal pattern. -/
theorem filter_statusRegex_eq_ci (store : List Task) (S : String)
    (hS : literalPattern S = true) :
    store.filter (fun t => statusRegexMatches S t.status)
      = store.filter (fun t => eqCaseInsensitive t.status S) := by
  have hall : S.data.all literalPatternChar = true := by
    simp only [literalPattern, Bool.and_eq_true] at hS
    exact hS.2
  apply List.filter_congr
  intro t _
  rw [Bool.eq_iff_iff]
  simp only [statusRegexMatches, eqCaseInsensitive, beq_iff_eq]
  rw [regexLitMatches_literal S.data hall t.status.data]
  exact eq_comm

/-- Claim C2 counterexample: on the one-task store holding t1 (status
Pending), filtering by the empty status string returns the full list (the
route treats the empty query as no filter), while the subset of the
unfiltered list whose status case-insensitively equals the empty string is
empty — the two differ, refuting the claim at this input. -/
theorem c2_counterexample :
    getAllTasks [task1] (some "") = [task1] ∧
    (getAllTasks [task1] none).filter (fun t => eqCaseInsensitive t.status "") = [] ∧
    getAllTasks [task1] (some "")
      ≠ (getAllTasks [task1] none).filter (fun t => eqCaseInsensitive t.status "") := by
  decide

/-- Claim C2 (amended): for every store and every non-empty status string free
of regex metacharacters, the filtered list consists, up to order, of exactly
the tasks of the unfiltered list whose status case-insensitively equals the
string, and it is ordered by createdAt descending; with no filter the result
is, up to order, the whole store, in that same order. (The route treats an
empty status query as no filter and matches the string as an anchored
case-insensitive regex, which forces the two restrictions.) -/
theorem c2_amended (store : List Task) (S : String) (hS : literalPattern S = true) :
    (getAllTasks store (some S)).Perm
        ((getAllTasks store none).filter (fun t => eqCaseInsensitive t.status S)) ∧
    List.Sorted createdAtDesc (getAllTasks store (some S)) ∧
    (getAllTasks store none).Perm store ∧
    List.Sorted createdAtDesc (getAllTasks store none) := by
  have hne : ¬ S = "" := by
    intro h
    rw [h] at hS
    exact absurd hS (by decide)
  have h1 : getAllTasks store (some S)
      = List.insertionSort createdAtDesc
          (store.filter (fun t => statusRegexMatches S t.status)) := by
    simp [getAllTasks, hne]
  have h2 : getAllTasks store none = List.insertionSort createdAtDesc store := rfl
  refine ⟨?_, ?_, ?_, ?_⟩
  · rw [h1, h2, filter_statusRegex_eq_ci store S hS]
    exact (List.perm_insertionSort _ _).trans
      (((List.perm_insertionSort createdAtDesc store).filter _).symm)
  · rw [h1]
    exact List.sorted_insertionSort _ _
  · exact List.perm_insertionSort _ _
  · exact List.sorted_insertionSort _ _

/-- Witness for C2 (amended) at the concrete store of the two demo tasks and
the lowercase status string pending (exercising case-insensitivity). -/
theorem c2_amended_witness :
    (getAllTasks [task1, task2] (some "pending")).Perm
        ((getAllTasks [task1, task2] none).filter
          (fun t => eqCaseInsensitive t.status "pending")) ∧
    List.Sorted createdAtDesc (getAllTasks [task1, task2] (some "pending")) ∧
    (getAllTasks [task1, task2] none).Perm [task1, task2] ∧
    List.Sorted createdAtDesc (getAllTasks [task1, task2] none) :=
  c2_amended [task1, task2] "pending" (by decide)

end Taskify
